/-
Verification of the request-execution core (`src/conn.rs`) of a synchronous
HTTP client, as a shallow embedding in Lean 4.

Conventions of the embedding:
* Pure Rust string manipulation (`str::contains`, `str::find`,
  `to_lowercase`, `eq_ignore_ascii_case`) is re-implemented over `List Char`.
* Network effects are an explicit `Env` record: DNS resolution, TCP opens,
  TLS name validation, the response read on each connection attempt, and
  relative-URL resolution (`Url::join`).  The pipeline threads explicit
  counters of DNS lookups and socket-open attempts, and records the header
  blocks and payloads it sent.
* `.unwrap()` on a missing value is modelled as a distinct `panic` outcome.
* Collaborators whose sources are not part of `src/` (the cookie
  parser/encoder, the header value object, the response reader) are modelled
  from the specification; their definitions carry a `Modelled from the
  spec:` note.
-/
import Mathlib

namespace UreqConn

/-! ## Characters and strings: Rust `str` operations used by `conn.rs` -/

/-- Rust `str::eq_ignore_ascii_case` (used on schemes, header names and the
`transfer-encoding` value): ASCII-case-insensitive equality. -/
def eq_ignore_case (a b : String) : Bool :=
  a.data.map Char.toLower == b.data.map Char.toLower

/-- Rust `str::to_lowercase` restricted to ASCII (all inputs of `conn.rs`
that reach it are ASCII header text). -/
def str_lower (s : String) : String :=
  ⟨s.data.map Char.toLower⟩

/-- Substring scan via `pat.isPrefixOf`: does `l` contain `pat` as a
contiguous sublist?  Backs Rust `str::contains`. -/
def contains_sub (pat : List Char) : List Char → Bool
  | [] => pat.isEmpty
  | c :: rest => pat.isPrefixOf (c :: rest) || contains_sub pat rest

/-- Rust `haystack.contains(needle)` for strings. -/
def str_contains (s sub : String) : Bool :=
  contains_sub sub.data s.data

/-- Index of the first occurrence of `pat`, backing Rust `str::find`
(the code only compares the position against `0`, so the char index is an
adequate stand-in for Rust's byte index). -/
def find_sub (pat : List Char) : List Char → Option Nat
  | [] => if pat.isEmpty then some 0 else none
  | c :: rest =>
    if pat.isPrefixOf (c :: rest) then some 0
    else (find_sub pat rest).map (· + 1)

/-- Rust `s.find(sub)` for strings. -/
def str_find (s sub : String) : Option Nat :=
  find_sub sub.data s.data

/-- Split a character list at every `';'` (the cookie-attribute separator).
Always returns at least one (possibly empty) segment. -/
def split_semi : List Char → List (List Char)
  | [] => [[]]
  | c :: rest =>
    if c == ';' then [] :: split_semi rest
    else
      match split_semi rest with
      | [] => [[c]]
      | s :: ss => (c :: s) :: ss

/-- Split at the first occurrence of `sep`; `none` when `sep` is absent. -/
def split_at_char : List Char → Char → Option (List Char × List Char)
  | [], _ => none
  | c :: rest, sep =>
    if c == sep then some ([], rest)
    else
      match split_at_char rest sep with
      | none => none
      | some (a, b) => some (c :: a, b)

/-- Drop leading spaces (attribute segments arrive as `"; Name=value"`). -/
def trim_lead (l : List Char) : List Char :=
  l.dropWhile (fun c => c == ' ')

/-! ## Data model -/

/-- A single HTTP header: the `Header` value object of the message layer.
Modelled from the spec: an ordered name/value pair; `conn.rs` reads it
through `name()` and `value()`. -/
structure Header where
  name : String
  value : String
deriving DecidableEq, Repr

/-- The caller's request descriptor.  Modelled from the spec: an ordered
header collection (duplicates permitted) plus the three timeout settings,
`0` meaning "no timeout".  `conn.rs` reads it through `headers`, `header`,
`has`, `timeout`, `timeout_read` and `timeout_write`. -/
structure Request where
  headers : List Header
  timeout : Nat
  timeout_read : Nat
  timeout_write : Nat
deriving DecidableEq, Repr

/-- Rust `Request::header(name)`: value of the first header whose name matches
case-insensitively. -/
def Request.header (r : Request) (name : String) : Option String :=
  (r.headers.find? (fun h => eq_ignore_case h.name name)).map Header.value

/-- Rust `Request::has(name)`. -/
def Request.has (r : Request) (name : String) : Bool :=
  (r.header name).isSome

/-- The partial response: status and headers, read by the response-reader
collaborator before the body is touched.  Modelled from the spec. -/
structure Response where
  status : Nat
  headers : List Header
deriving DecidableEq, Repr

/-- Rust `Response::header(name)`: first case-insensitive match. -/
def Response.header (r : Response) (name : String) : Option String :=
  (r.headers.find? (fun h => eq_ignore_case h.name name)).map Header.value

/-- Rust `Response::all(name)`: every value carried under the given name. -/
def Response.all (r : Response) (name : String) : List String :=
  (r.headers.filter (fun h => eq_ignore_case h.name name)).map Header.value

/-- Modelled from the spec: `Response::redirect` lives in `response.rs`,
which is not part of `src/`; per the spec, "a response is a redirect when
its status is in the 3xx range and a `Location` header is present". -/
def Response.redirect (r : Response) : Bool :=
  decide (300 ≤ r.status) && decide (r.status ≤ 399) && (r.header "location").isSome

/-- The URL value object of the URL-parsing layer.  Modelled from the spec:
scheme / optional host / optional port / path accessors. -/
structure Url where
  scheme : String
  host : Option String
  port : Option Nat
  path : String
deriving DecidableEq, Repr

/-- One cookie record.  Modelled from the spec: name, value, optional
domain, optional path, secure flag. -/
structure Cookie where
  name : String
  value : String
  domain : Option String
  path : Option String
  secure : Bool
deriving DecidableEq, Repr

/-- The cookie store.  Modelled from the spec: a mutable store of cookie
records, iterated by `match_cookies` and extended by `add`. -/
abbrev CookieJar := List Cookie

/-- Rust `CookieJar::add`.  Modelled from the spec (the collaborator's
same-name-replacement policy is irrelevant to every claim; `add` appends). -/
def jar_add (jar : CookieJar) (c : Cookie) : CookieJar :=
  jar ++ [c]

/-- The payload variant.  Modelled from the spec: `Empty`, or a
byte-producing source with an optional known total size; the source is a
list of the blocks successive `read` calls produce. -/
inductive Payload where
  | Empty : Payload
  | Source (size : Option Nat) (chunks : List (List Nat)) : Payload
deriving DecidableEq, Repr

/-- Rust `Payload::into_read()`: the optional known size plus the reader.
Modelled from the spec: an empty payload has known size 0 and produces no
bytes. -/
def Payload.into_read : Payload → Option Nat × List (List Nat)
  | .Empty => (some 0, [])
  | .Source size chunks => (size, chunks)

/-- The transport variant (`stream.rs`): plain socket, TLS session over a
socket, or the test stream.  The session/socket contents play no role in
any claim, so the variants are bare. -/
inductive Stream where
  | Http : Stream
  | Https : Stream
  | Test : Stream
deriving DecidableEq, Repr

/-- The error enumeration of the crate, as used by `conn.rs`. -/
inductive Error where
  | UnknownScheme (s : String)
  | DnsFailed (s : String)
  | ConnectionFailed (s : String)
  | BadUrl (s : String)
  | TooManyRedirects
deriving DecidableEq, Repr

/-- Result of a code path that can return a value, return an error, or
panic (Rust `.unwrap()` on `None`). -/
inductive PRes (α : Type) where
  | ok (a : α)
  | err (e : Error)
  | panic
deriving DecidableEq, Repr

/-- Overall outcome of one pipeline call. -/
inductive Outcome where
  | ok (resp : Response)
  | err (e : Error)
  | panic
deriving DecidableEq, Repr

/-! ## Cookie collaborator (parser / encoder), modelled from the spec -/

/-- Apply one attribute segment of a `Set-Cookie` value to a cookie record.
Modelled from the spec: the cookie collaborator recognises `Domain=`,
`Path=` and the bare `Secure` flag case-insensitively; later occurrences of
an attribute override earlier ones; unknown attributes are kept only as far
as round-tripping needs them, which no claim observes. -/
def apply_attr (c : Cookie) (seg : List Char) : Cookie :=
  let seg' := trim_lead seg
  match split_at_char seg' '=' with
  | none =>
    if eq_ignore_case ⟨seg'⟩ "secure" then { c with secure := true } else c
  | some (k, v) =>
    if eq_ignore_case ⟨k⟩ "domain" then { c with domain := some ⟨v⟩ }
    else if eq_ignore_case ⟨k⟩ "path" then { c with path := some ⟨v⟩ }
    else c

/-- First segment of a `Set-Cookie` value: `name=value`, split at the first
`'='`; fails when the `'='` is absent or the name is empty. -/
def parse_pair (l : List Char) : Option (String × String) :=
  match split_at_char l '=' with
  | none => none
  | some (n, v) => if n.isEmpty then none else some (⟨n⟩, ⟨v⟩)

/-- Modelled from the spec: `Cookie::parse_encoded` of the cookie
collaborator (not part of `src/`).  Splits on `';'`; the first segment must
be a `name=value` pair (otherwise the cookie text is unparseable); the
remaining segments are attributes.  Percent-decoding is identity on the
ASCII header text every claim uses. -/
def Cookie.parse_encoded (s : String) : Option Cookie :=
  match split_semi s.data with
  | [] => none
  | first :: attrs =>
    match parse_pair (trim_lead first) with
    | none => none
    | some (n, v) =>
      some (attrs.foldl apply_attr
        { name := n, value := v, domain := none, path := none, secure := false })

/-- Rust `Cookie::new(name, value).encoded().to_string()` of the cookie
collaborator.  Modelled from the spec: the single-cookie `name=value`
form. -/
def Cookie.encoded (c : Cookie) : String :=
  c.name ++ "=" ++ c.value

/-- Modelled from the spec: the `Header` `FromStr` collaborator used by
`match_cookies` (`head.parse::<Header>()`).  Splits at the first `':'`,
trims the leading space of the value, and fails on malformed characters
(control characters in the line), which is the failure mode the spec
ascribes to re-encoding jar entries. -/
def header_parse (line : String) : Option Header :=
  match split_at_char line.data ':' with
  | none => none
  | some (n, v) =>
    if !n.isEmpty && (n ++ v).all (fun ch => !(ch == '\r') && !(ch == '\n')) then
      some ⟨⟨n⟩, ⟨trim_lead v⟩⟩
    else none

/-- The `Cookie: name=value` header line a matching jar entry re-encodes
into (`conn.rs` lines 244-249); `none` when the entry fails to re-encode. -/
def cookie_header_line (c : Cookie) : Option Header :=
  header_parse ("Cookie: " ++ Cookie.encoded c)

/-- The filter closure of `match_cookies` (`conn.rs` lines 230-243):
a domain attribute must be present and be *contained* in the request domain
(`domain.contains(cdom)`); a path attribute, when present, must occur in
the request path at position 0; a secure-only entry needs a secure
request. -/
def cookie_matches (c : Cookie) (domain path : String) (is_secure : Bool) : Bool :=
  let domain_ok := (c.domain.map (fun cdom => str_contains domain cdom)).getD false
  let path_ok := (c.path.map (fun cpath =>
      ((str_find path cpath).map (fun pos => decide (pos = 0))).getD false)).getD true
  let secure_ok := !c.secure || is_secure
  domain_ok && path_ok && secure_ok

/-- The function `match_cookies` (`conn.rs` lines 228-254): filter the jar, re-encode
each match into a `Cookie:` header line, and silently drop entries whose
re-encoding fails (`.filter(|o| o.is_some()).map(|o| o.unwrap())`,
rendered as `reduceOption`). -/
def match_cookies (jar : CookieJar) (domain path : String) (is_secure : Bool) : List Header :=
  ((jar.filter (fun c => cookie_matches c domain path is_secure)).map
    (fun c => cookie_header_line c)).reduceOption

/-! ## Storing response cookies (`conn.rs` lines 70-85) -/

/-- The string handed to the cookie parser for one raw `Set-Cookie` value:
when the lowercased raw value does not contain the substring `"domain="`,
`"; Domain=<hostname>"` is appended first (`conn.rs` lines 72-76). -/
def prepare_cookie (raw hostname : String) : String :=
  if str_contains (str_lower raw) "domain=" then raw
  else raw ++ "; Domain=" ++ hostname

/-- Store one raw `Set-Cookie` value: parse the prepared text; an
unparseable cookie is ignored (`Err(_) => ()`), a parsed one is added to
the jar (`conn.rs` lines 77-83). -/
def store_raw_cookie (jar : CookieJar) (hostname raw : String) : CookieJar :=
  match Cookie.parse_encoded (prepare_cookie raw hostname) with
  | none => jar
  | some c => jar_add jar c

/-- Fold every `Set-Cookie` value of a response into the jar
(`conn.rs` lines 70-85). -/
def store_cookies (jar : CookieJar) (hostname : String) (raws : List String) : CookieJar :=
  raws.foldl (fun j raw => store_raw_cookie j hostname raw) jar

/-! ## Payload transmission (`conn.rs` lines 185-225) -/

/-- The constant `CHUNK_SIZE` (`conn.rs` line 13): both the copy-buffer size and the
fixed-vs-chunked threshold. -/
def CHUNK_SIZE : Nat := 1024 * 1024

/-- The framing decision of `send_payload` (`conn.rs` lines 189-200),
embedded exactly as written:

```rust
request.header("transfer-encoding")
    .map(|enc| enc.eq_ignore_ascii_case("chunked"))
    .ok_or_else(|| size
        .or_else(|| request.header("content-length")
            .map(|len| len.parse::<usize>().unwrap_or(0)))
        .map(|size| size > CHUNK_SIZE))
    .unwrap_or(true)
```

`Option::ok_or_else` turns the mapped transfer-encoding header into
`Result<bool, Option<bool>>` whose `Err` carries the size-based decision,
and `Result::unwrap_or(true)` then returns `true` for every `Err` — so the
size computation is carried but discarded whenever the request has no
`transfer-encoding` header. -/
def do_chunk (request : Request) (size : Option Nat) : Bool :=
  let te_mapped : Option Bool :=
    (request.header "transfer-encoding").map (fun enc => eq_ignore_case enc "chunked")
  let size_based : Option Bool :=
    ((size.orElse (fun _ =>
        (request.header "content-length").map (fun len => len.toNat?.getD 0))).map
      (fun sz => decide (sz > CHUNK_SIZE)))
  let r : Except (Option Bool) Bool :=
    match te_mapped with
    | some b => .ok b
    | none => .error size_based
  match r with
  | .ok b => b
  | .error _ => true

/-- The reads `pipe` performs (`conn.rs` lines 211-225): one block per
`read` call, stopping at the first zero-length read.  The 1 MiB copy
buffer bounds each block in the real code; the bound is irrelevant to
every claim. -/
def read_chunks (chunks : List (List Nat)) : List (List Nat) :=
  chunks.takeWhile (fun c => !c.isEmpty)

/-- ASCII codes of the hexadecimal rendering of `n` (the chunk-length
prefix of the chunked transfer coding). -/
def hex_digits (n : Nat) : List Nat :=
  (Nat.toDigits 16 n).map Char.toNat

/-- One chunk of the chunked transfer coding: hex length, CRLF, data,
CRLF.  Modelled from the spec: the `chunked_transfer::Encoder`
collaborator fram-es each `write_all` this way. -/
def chunk_frame (data : List Nat) : List Nat :=
  hex_digits data.length ++ [13, 10] ++ data ++ [13, 10]

/-- The full chunked body: every block framed, then the zero-length
terminator chunk `0\r\n\r\n`. -/
def chunked_encode (chunks : List (List Nat)) : List Nat :=
  (chunks.map chunk_frame).flatten ++ (hex_digits 0 ++ [13, 10, 13, 10])

/-- Which framing was used for a transmission. -/
inductive Framing where
  | fixed : Framing
  | chunked : Framing
deriving DecidableEq, Repr

/-- The function `send_payload` (`conn.rs` lines 185-209): pick the framing with
`do_chunk`, then stream the reader through `pipe`, chunk-encoded or
verbatim.  Returns the framing used and the bytes written to the
stream. -/
def send_payload (request : Request) (payload : Payload) : Framing × List Nat :=
  let sr := payload.into_read
  if do_chunk request sr.1 then
    (Framing.chunked, chunked_encode (read_chunks sr.2))
  else
    (Framing.fixed, (read_chunks sr.2).flatten)

/-! ## Network environment and the connector (`conn.rs` lines 124-183) -/

/-- The effectful collaborators of one call chain, made explicit:
DNS resolution (`dns_lookup::lookup_host`), the untimed and timed TCP
connects, `webpki` TLS-name validation, the response each successive
connection attempt reads (`Response::from_read`), and relative-URL
resolution (`Url::join`, which may fail). -/
structure Env where
  dns : String → Except String (List Nat)
  tcp : Nat → Nat → Except String Unit
  tcpTimed : Nat → Nat → Nat → Except String Unit
  tlsNameOk : String → Bool
  resp : Nat → Response
  join : Url → String → Option Url

/-- The function `connect_host` (`conn.rs` lines 152-183).  Returns the result plus the
number of DNS lookups (always 1: `lookup_host` is the first action) and of
socket-open attempts (1 once an address was resolved) this call performed.
The post-connect `set_read_timeout`/`set_write_timeout` configuration
(applied only for nonzero settings, errors swallowed with `.ok()`) has no
observable effect in the model and is elided. -/
def connect_host (env : Env) (request : Request) (hostname : String) (port : Nat) :
    Except Error Unit × Nat × Nat :=
  match env.dns hostname with
  | .error e => (.error (.DnsFailed e), 1, 0)
  | .ok ips =>
    match ips with
    | [] => (.error (.DnsFailed ("No ip address for " ++ hostname)), 1, 0)
    | ip :: _ =>
      match (if request.timeout = 0 then env.tcp ip port
             else env.tcpTimed ip port request.timeout) with
      | .error e => (.error (.ConnectionFailed e), 1, 1)
      | .ok _ => (.ok (), 1, 1)

/-- The function `connect_http` (`conn.rs` lines 124-130): `url.host_str().unwrap()`
panics when the URL has no host; the default port is 80. -/
def connect_http (env : Env) (request : Request) (url : Url) : PRes Stream × Nat × Nat :=
  match url.host with
  | none => (.panic, 0, 0)
  | some hostname =>
    match connect_host env request hostname (url.port.getD 80) with
    | (.error e, d, t) => (.err e, d, t)
    | (.ok _, d, t) => (.ok Stream.Http, d, t)

/-- The function `connect_https` (`conn.rs` lines 132-150): `url.host_str().unwrap()`
panics when the URL has no host; default port 443; the rustls
configuration with the built-in trust anchors has no observable effect
here; after the socket is opened the hostname must be a valid TLS server
name, otherwise `ConnectionFailed` is returned. -/
def connect_https (env : Env) (request : Request) (url : Url) : PRes Stream × Nat × Nat :=
  match url.host with
  | none => (.panic, 0, 0)
  | some hostname =>
    match connect_host env request hostname (url.port.getD 443) with
    | (.error e, d, t) => (.err e, d, t)
    | (.ok _, d, t) =>
      if env.tlsNameOk hostname then (.ok Stream.Https, d, t)
      else (.err (.ConnectionFailed ("Invalid TLS name: " ++ hostname)), d, t)

/-- The function `connect_test` in the `cfg(not(test))` shape that ships
(`conn.rs` lines 256-259): refuse with `UnknownScheme`. -/
def connect_test (_env : Env) (_request : Request) (url : Url) : PRes Stream :=
  .err (.UnknownScheme url.scheme)

/-- The scheme dispatch of `connect` (`conn.rs` lines 46-51): exact match
on the scheme string; anything else is `UnknownScheme` with no I/O. -/
def connector (env : Env) (request : Request) (url : Url) : PRes Stream × Nat × Nat :=
  if url.scheme = "http" then connect_http env request url
  else if url.scheme = "https" then connect_https env request url
  else if url.scheme = "test" then (connect_test env request url, 0, 0)
  else (.err (.UnknownScheme url.scheme), 0, 0)

/-! ## The request/redirect pipeline (`conn.rs` lines 23-121) -/

/-- Rust `url.host_str().unwrap_or("localhost")` (`conn.rs` line 34): the
domain cookie matching runs against. -/
def request_hostname (url : Url) : String :=
  (url.host).getD "localhost"

/-- Whether building the prelude panics: `url.host().unwrap()` is reached
only when the caller did not set a `Host` header (`conn.rs` lines 56-58). -/
def host_unwrap_panics (request : Request) (url : Url) : Bool :=
  !(request.has "host") && (url.host).isNone

/-- The header block written after the request line: the caller's headers
followed by the matched cookie headers (`conn.rs` lines 37-43 and 59-61).
The request line and the optional synthesized `Host` header are part of
the prelude but carry no information any claim observes. -/
def prelude_headers (request : Request) (jar : Option CookieJar) (url : Url) : List Header :=
  request.headers ++
    (match jar with
     | none => []
     | some j => match_cookies j (request_hostname url) url.path
         (eq_ignore_case url.scheme "https"))

/-- The in-place jar mutation of `conn.rs` lines 70-85: `None` jars stay
`None`, otherwise every `Set-Cookie` value of the response is folded in. -/
def update_jar (jar : Option CookieJar) (hostname : String) (resp : Response) :
    Option CookieJar :=
  match jar with
  | none => none
  | some j => some (store_cookies j hostname (resp.all "set-cookie"))

/-- Everything one pipeline call did: its outcome, the final jar contents,
how many socket-open attempts and DNS lookups the whole chain issued, and
the header blocks / payloads written per connection attempt (in order). -/
structure RunResult where
  outcome : Outcome
  jar : Option CookieJar
  attempts : Nat
  dnsCalls : Nat
  sentHeaders : List (List Header)
  sentPayloads : List Payload
deriving DecidableEq, Repr

/-- Merge the trace of the current hop with the result of the recursive
call: counters add up; a payload drained on the current stream before
recursing (the 301/302/303 branch) is recorded in front. -/
def merge_hop (t d : Nat) (sent : List Header) (drained : Option Payload)
    (r : RunResult) : RunResult :=
  ⟨r.outcome, r.jar, t + r.attempts, d + r.dnsCalls, sent :: r.sentHeaders,
    match drained with
    | some p => p :: r.sentPayloads
    | none => r.sentPayloads⟩

/-- Rust `ConnectionPool::connect` (`conn.rs` lines 23-121), the
request/redirect pipeline.  `attempt` indexes the connection attempts so
`env.resp` can script a response chain.  Faithful to the source order:
cookie matching runs first (pure), then the scheme dispatch opens the
stream, the prelude is written (`url.host().unwrap()` can panic when the
caller set no `Host` header), the response headers are read, `Set-Cookie`
values are folded into the jar, and then redirects are decided —
`TooManyRedirects` when the budget is 0, `BadUrl` when `Location` does not
resolve against the current URL, a recursive call with method `GET` and an
`Empty` payload after draining the current payload for statuses
301/302/303, and a recursive call with the original method and payload for
`307 | 308 | _`.  A redirect status with no `Location` header, like any
non-redirect, falls through to `send_payload` and hands the stream to the
response. -/
def connect (env : Env) (attempt : Nat) (request : Request) (method : String)
    (url : Url) (redirects : Nat) (jar : Option CookieJar) (payload : Payload) :
    RunResult :=
  match connector env request url with
  | (.panic, d, t) => ⟨.panic, jar, t, d, [], []⟩
  | (.err e, d, t) => ⟨.err e, jar, t, d, [], []⟩
  | (.ok _, d, t) =>
    if host_unwrap_panics request url then ⟨.panic, jar, t, d, [], []⟩
    else if (env.resp attempt).redirect then
      match redirects with
      | 0 => ⟨.err .TooManyRedirects,
          update_jar jar (request_hostname url) (env.resp attempt), t, d,
          [prelude_headers request jar url], []⟩
      | n + 1 =>
        match (env.resp attempt).header "location" with
        | some location =>
          match env.join url location with
          | none => ⟨.err (.BadUrl ("Bad redirection: " ++ location)),
              update_jar jar (request_hostname url) (env.resp attempt), t, d,
              [prelude_headers request jar url], []⟩
          | some new_url =>
            if (env.resp attempt).status = 301 ∨ (env.resp attempt).status = 302 ∨
                (env.resp attempt).status = 303 then
              merge_hop t d (prelude_headers request jar url) (some payload)
                (connect env (attempt + 1) request "GET" new_url n
                  (update_jar jar (request_hostname url) (env.resp attempt)) Payload.Empty)
            else
              merge_hop t d (prelude_headers request jar url) none
                (connect env (attempt + 1) request method new_url n
                  (update_jar jar (request_hostname url) (env.resp attempt)) payload)
        | none => ⟨.ok (env.resp attempt),
            update_jar jar (request_hostname url) (env.resp attempt), t, d,
            [prelude_headers request jar url], [payload]⟩
    else ⟨.ok (env.resp attempt),
        update_jar jar (request_hostname url) (env.resp attempt), t, d,
        [prelude_headers request jar url], [payload]⟩

/-- A healthy network: DNS always resolves to at least one address, both
TCP connects succeed, every hostname is a valid TLS name. -/
def net_ok (env : Env) : Prop :=
  (∀ h, ∃ ip rest, env.dns h = Except.ok (ip :: rest))
  ∧ (∀ ip p, env.tcp ip p = .ok ())
  ∧ (∀ ip p t, env.tcpTimed ip p t = .ok ())
  ∧ (∀ h, env.tlsNameOk h = true)

/-! ## Concrete fixtures for witnesses and counterexamples -/

/-- A request with no headers and no timeouts. -/
def req0 : Request := ⟨[], 0, 0, 0⟩

/-- A plain success response. -/
def resp200 : Response := ⟨200, []⟩

/-- A `301` redirect carrying a `Location` and a `Set-Cookie` header. -/
def resp301 : Response := ⟨301, [⟨"Location", "/next"⟩, ⟨"Set-Cookie", "sid=42"⟩]⟩

/-- A `307` redirect carrying a `Location` header. -/
def resp307 : Response := ⟨307, [⟨"Location", "/next"⟩]⟩

/-- A `302` response with no `Location` header. -/
def resp302_noloc : Response := ⟨302, [⟨"Set-Cookie", "sid=42"⟩]⟩

/-- The URL `http://api.example.com/`. -/
def url_api : Url := ⟨"http", some "api.example.com", none, "/"⟩

/-- The resolved redirect target. -/
def url_next : Url := ⟨"http", some "example.com", none, "/next"⟩

/-- An `ftp` URL with no host component. -/
def url_ftp_nohost : Url := ⟨"ftp", none, none, "/"⟩

/-- An `http` URL with no host component. -/
def url_http_nohost : Url := ⟨"http", none, none, "/"⟩

/-- A healthy environment whose every response is `resp200`. -/
def env0 : Env :=
  ⟨fun _ => .ok [0], fun _ _ => .ok (), fun _ _ _ => .ok (), fun _ => true,
    fun _ => resp200, fun _ _ => none⟩

/-- A healthy environment: the first attempt reads `first`, later attempts
read `resp200`; `Location` values resolve to `url_next`. -/
def env_redirect (first : Response) : Env :=
  ⟨fun _ => .ok [0], fun _ _ => .ok (), fun _ _ _ => .ok (), fun _ => true,
    fun a => if a = 0 then first else resp200, fun _ _ => some url_next⟩

/-- Jar entry with domain attribute `example.com`. -/
def cookie_sub : Cookie := ⟨"a", "1", some "example.com", none, false⟩

/-- Jar entry with no domain attribute. -/
def cookie_nodomain : Cookie := ⟨"nd", "1", none, none, false⟩

/-- Jar entry whose value re-encodes into a malformed header line. -/
def cookie_badline : Cookie := ⟨"b", "x\ny", some "example.com", none, false⟩

/-- A 10-byte payload of known size 10. -/
def pay10 : Payload := .Source (some 10) [[0, 1, 2, 3, 4, 5, 6, 7, 8, 9]]

/-- A 1-byte payload of known size 1. -/
def pay7 : Payload := .Source (some 1) [[7]]

/-! ## Helper lemmas -/

theorem host_unwrap_panics_eq_false {url : Url} {hn : String} (request : Request)
    (h : url.host = some hn) : host_unwrap_panics request url = false := by
  simp [host_unwrap_panics, h]

theorem connect_host_ok {env : Env} (henv : net_ok env) (request : Request)
    (hn : String) (port : Nat) : connect_host env request hn port = (.ok (), 1, 1) := by
  obtain ⟨hdns, htcp, htcpT, _⟩ := henv
  obtain ⟨ip, rest, hip⟩ := hdns hn
  unfold connect_host
  rw [hip]
  by_cases ht : request.timeout = 0 <;> simp [ht, htcp, htcpT]

theorem connector_ok {env : Env} {url : Url} {hn : String} (henv : net_ok env)
    (hs : url.scheme = "http" ∨ url.scheme = "https") (hh : url.host = some hn)
    (request : Request) : ∃ s, connector env request url = (.ok s, 1, 1) := by
  rcases hs with h | h
  · exact ⟨.Http, by simp [connector, h, connect_http, hh, connect_host_ok henv]⟩
  · refine ⟨.Https, ?_⟩
    simp [connector, h, connect_https, hh, connect_host_ok henv, henv.2.2.2]

theorem connect_host_tcp_le (env : Env) (request : Request) (hn : String) (port : Nat) :
    (connect_host env request hn port).2.2 ≤ 1 := by
  unfold connect_host
  split
  · simp
  · split
    · simp
    · split <;> simp

theorem connector_tcp_le_one (env : Env) (request : Request) (url : Url) :
    (connector env request url).2.2 ≤ 1 := by
  have hhttp : ∀ u, (connect_http env request u).2.2 ≤ 1 := by
    intro u
    cases hu : u.host with
    | none => simp [connect_http, hu]
    | some hostname =>
      have hle := connect_host_tcp_le env request hostname (u.port.getD 80)
      rcases hch : connect_host env request hostname (u.port.getD 80) with ⟨res, d, t⟩
      rw [hch] at hle
      simp only at hle
      cases res <;> simp [connect_http, hu, hch, hle]
  have hhttps : ∀ u, (connect_https env request u).2.2 ≤ 1 := by
    intro u
    cases hu : u.host with
    | none => simp [connect_https, hu]
    | some hostname =>
      have hle := connect_host_tcp_le env request hostname (u.port.getD 443)
      rcases hch : connect_host env request hostname (u.port.getD 443) with ⟨res, d, t⟩
      rw [hch] at hle
      simp only at hle
      cases res with
      | error e => simp [connect_https, hu, hch, hle]
      | ok v =>
        by_cases htls : env.tlsNameOk hostname <;>
          simp [connect_https, hu, hch, hle, htls]
  unfold connector
  split_ifs
  · exact hhttp url
  · exact hhttps url
  · simp
  · simp

theorem connect_unknown_scheme (env : Env) (attempt : Nat) (request : Request)
    (method : String) (url : Url) (redirects : Nat) (jar : Option CookieJar)
    (payload : Payload) (h1 : url.scheme ≠ "http") (h2 : url.scheme ≠ "https") :
    connect env attempt request method url redirects jar payload
      = ⟨.err (.UnknownScheme url.scheme), jar, 0, 0, [], []⟩ := by
  have hc : connector env request url = (.err (.UnknownScheme url.scheme), 0, 0) := by
    by_cases h3 : url.scheme = "test" <;>
      simp [connector, h1, h2, h3, connect_test]
  rw [connect.eq_def, hc]

/-! ## Claim theorems -/

/-- C1 (code bug), the code evaluated at the failing input: a request with
no headers at all (so no `transfer-encoding` and no `content-length`) and a
payload of known size 10 bytes is sent with CHUNKED framing, although
10 ≤ 1 MiB — `Result::unwrap_or(true)` in `send_payload` discards the
size-based branch of the decision, so without a `transfer-encoding` header
the framing is always chunked, contrary to the claim and to the comments
inside `send_payload` itself. -/
theorem claim1_framing_at_failing_input :
    req0.header "transfer-encoding" = none
    ∧ (send_payload req0 pay10).1 = Framing.chunked
    ∧ 10 ≤ CHUNK_SIZE := by
  refine ⟨rfl, rfl, by decide⟩

/-- C9: for every URL whose scheme is neither `http` nor `https` (the
in-source `test` scheme included: its `cfg(not(test))` connector refuses
too), the pipeline returns `UnknownScheme` carrying that scheme, with zero
DNS lookups and zero socket-open attempts, the jar untouched and nothing
written. -/
theorem claim9_unknown_scheme_no_io (env : Env) (attempt : Nat) (request : Request)
    (method : String) (url : Url) (redirects : Nat) (jar : Option CookieJar)
    (payload : Payload) (h1 : url.scheme ≠ "http") (h2 : url.scheme ≠ "https") :
    connect env attempt request method url redirects jar payload
      = ⟨.err (.UnknownScheme url.scheme), jar, 0, 0, [], []⟩ :=
  connect_unknown_scheme env attempt request method url redirects jar payload h1 h2

/-- C9 witness: `ftp://host/path` fails with `UnknownScheme "ftp"` and a
DNS-lookup counter of zero. -/
theorem claim9_witness :
    connect env0 0 req0 "GET" ⟨"ftp", some "host", none, "/path"⟩ 5 none Payload.Empty
      = ⟨.err (.UnknownScheme "ftp"), none, 0, 0, [], []⟩ :=
  claim9_unknown_scheme_no_io env0 0 req0 "GET" ⟨"ftp", some "host", none, "/path"⟩ 5 none
    Payload.Empty (by decide) (by decide)

/-- C3: a response that is not a redirect — any non-3xx status, or a 3xx
status with no `Location` header (`Response.redirect` is false exactly
then) — never produces a redirect error, for *every* remaining redirect
budget including 0: the pipeline sends the payload on the same stream and
returns the response.  (Connection success is hypothesised through
`net_ok`; `Response::redirect` is modelled from the spec.) -/
theorem claim3_non_redirect_returns {env : Env} {url : Url} {hn : String}
    (henv : net_ok env) (hs : url.scheme = "http" ∨ url.scheme = "https")
    (hh : url.host = some hn) (attempt : Nat) (request : Request) (method : String)
    (redirects : Nat) (jar : Option CookieJar) (payload : Payload)
    (hredir : (env.resp attempt).redirect = false) :
    (connect env attempt request method url redirects jar payload).outcome
        = .ok (env.resp attempt)
    ∧ (connect env attempt request method url redirects jar payload).sentPayloads
        = [payload] := by
  obtain ⟨s, hc⟩ := connector_ok henv hs hh request
  rw [connect.eq_def, hc]
  simp [host_unwrap_panics_eq_false request hh, hredir]

/-- C3 witness: a 302 response with no `Location` header, at redirect
budget 0, returns the response and sends the payload. -/
theorem claim3_witness :
    (connect (env_redirect resp302_noloc) 0 req0 "POST" url_api 0 (some []) pay7).outcome
        = .ok resp302_noloc
    ∧ (connect (env_redirect resp302_noloc) 0 req0 "POST" url_api 0 (some []) pay7).sentPayloads
        = [pay7] := by
  have h := @claim3_non_redirect_returns (env_redirect resp302_noloc) url_api
    "api.example.com"
    ⟨fun _ => ⟨0, [], rfl⟩, fun _ _ => rfl, fun _ _ _ => rfl, fun _ => rfl⟩
    (Or.inl rfl) rfl 0 req0 "POST" 0 (some []) pay7 (by decide)
  exact h

theorem connect_attempts_le (redirects : Nat) :
    ∀ (env : Env) (attempt : Nat) (request : Request) (method : String) (url : Url)
      (jar : Option CookieJar) (payload : Payload),
      (connect env attempt request method url redirects jar payload).attempts
        ≤ redirects + 1 := by
  induction redirects with
  | zero =>
    intro env attempt request method url jar payload
    rcases hc : connector env request url with ⟨res, d, t⟩
    have ht : t ≤ 1 := by
      have := connector_tcp_le_one env request url
      rw [hc] at this; simpa using this
    rw [connect.eq_def, hc]
    cases res with
    | panic => simpa using ht
    | err e => simpa using ht
    | ok s =>
      by_cases hp : host_unwrap_panics request url
      · simp [hp, ht]
      · by_cases hr : (env.resp attempt).redirect <;> simp [hp, hr, ht]
  | succ n ih =>
    intro env attempt request method url jar payload
    rcases hc : connector env request url with ⟨res, d, t⟩
    have ht : t ≤ 1 := by
      have := connector_tcp_le_one env request url
      rw [hc] at this; simpa using this
    rw [connect.eq_def, hc]
    cases res with
    | panic => simp; omega
    | err e => simp; omega
    | ok s =>
      by_cases hp : host_unwrap_panics request url
      · simp [hp]; omega
      · by_cases hr : (env.resp attempt).redirect
        · rcases hloc : (env.resp attempt).header "location" with _ | loc
          · simp [hp, hr, hloc]; omega
          · rcases hjoin : env.join url loc with _ | new_url
            · simp [hp, hr, hloc, hjoin]; omega
            · by_cases hst : (env.resp attempt).status = 301 ∨ (env.resp attempt).status = 302
                ∨ (env.resp attempt).status = 303
              · have hrec := ih env (attempt + 1) request "GET" new_url
                  (update_jar jar (request_hostname url) (env.resp attempt)) Payload.Empty
                simp [hp, hr, hloc, hjoin, hst, merge_hop]
                omega
              · have hrec := ih env (attempt + 1) request method new_url
                  (update_jar jar (request_hostname url) (env.resp attempt)) payload
                simp [hp, hr, hloc, hjoin, hst, merge_hop]
                omega
        · simp [hp, hr]; omega

/-- C4: the redirect budget strictly decreases on each hop, so a whole
chain issues at most `budget + 1` connection attempts (the recursion in the
embedding is structural on the budget, so termination holds by
construction); and with budget 0, any redirect response — a 3xx with a
`Location` header, per the spec-modelled `Response.redirect` — fails with
`TooManyRedirects` after exactly one connection attempt and one DNS lookup,
with no recursive call (nothing beyond the first header block is sent). -/
theorem claim4_budget_decreases_and_terminates :
    (∀ (env : Env) (attempt : Nat) (request : Request) (method : String) (url : Url)
       (redirects : Nat) (jar : Option CookieJar) (payload : Payload),
       (connect env attempt request method url redirects jar payload).attempts
         ≤ redirects + 1)
    ∧ (∀ (env : Env) (attempt : Nat) (request : Request) (method : String) (url : Url)
       (hn : String) (jar : Option CookieJar) (payload : Payload),
       net_ok env → (url.scheme = "http" ∨ url.scheme = "https") → url.host = some hn →
       (env.resp attempt).redirect = true →
       connect env attempt request method url 0 jar payload
         = ⟨.err .TooManyRedirects,
             update_jar jar (request_hostname url) (env.resp attempt), 1, 1,
             [prelude_headers request jar url], []⟩) := by
  constructor
  · intro env attempt request method url redirects jar payload
    exact connect_attempts_le redirects env attempt request method url jar payload
  · intro env attempt request method url hn jar payload henv hs hh hredir
    obtain ⟨s, hc⟩ := connector_ok henv hs hh request
    rw [connect.eq_def, hc]
    simp [host_unwrap_panics_eq_false request hh, hredir]

/-- C4 witness: with budget 5 the chain makes at most 6 attempts; with
budget 0 and a 301-with-Location response the call fails with
`TooManyRedirects` after exactly one connection attempt, having stored the
response cookie. -/
theorem claim4_witness :
    (connect (env_redirect resp301) 0 req0 "POST" url_api 5 (some []) pay7).attempts ≤ 6
    ∧ connect (env_redirect resp301) 0 req0 "POST" url_api 0 (some []) pay7
        = ⟨.err .TooManyRedirects,
            some [⟨"sid", "42", some "api.example.com", none, false⟩], 1, 1, [[]], []⟩ := by
  constructor
  · exact claim4_budget_decreases_and_terminates.1 (env_redirect resp301) 0 req0 "POST"
      url_api 5 (some []) pay7
  · rw [claim4_budget_decreases_and_terminates.2 (env_redirect resp301) 0 req0 "POST"
      url_api "api.example.com" (some []) pay7
      ⟨fun _ => ⟨0, [], rfl⟩, fun _ _ => rfl, fun _ _ _ => rfl, fun _ => rfl⟩
      (Or.inl rfl) rfl (by decide)]
    decide

/-- C5: on a 301/302/303 redirect with a resolvable `Location` and nonzero
budget, the pipeline call is exactly: drain the current payload on the
current stream (it is recorded in front of the trace by `merge_hop`
… `some payload`), then recurse with method `"GET"`, the resolved URL, the
budget decremented to `n`, the same jar (updated in place with the
response's cookies), and an `Empty` payload — so the original payload is
never sent on the new connection, whatever the original method and payload
were. -/
theorem claim5_redirect_converts_to_get {env : Env} {url : Url} {hn loc : String}
    {new_url : Url} (henv : net_ok env)
    (hs : url.scheme = "http" ∨ url.scheme = "https") (hh : url.host = some hn)
    (attempt : Nat) (request : Request) (method : String) (n : Nat)
    (jar : Option CookieJar) (payload : Payload)
    (hst : (env.resp attempt).status = 301 ∨ (env.resp attempt).status = 302
      ∨ (env.resp attempt).status = 303)
    (hloc : (env.resp attempt).header "location" = some loc)
    (hjoin : env.join url loc = some new_url) :
    connect env attempt request method url (n + 1) jar payload
      = merge_hop 1 1 (prelude_headers request jar url) (some payload)
          (connect env (attempt + 1) request "GET" new_url n
            (update_jar jar (request_hostname url) (env.resp attempt)) Payload.Empty) := by
  have hredir : (env.resp attempt).redirect = true := by
    rcases hst with h | h | h <;> simp [Response.redirect, h, hloc]
  obtain ⟨s, hc⟩ := connector_ok henv hs hh request
  rw [connect.eq_def, hc]
  simp [host_unwrap_panics_eq_false request hh, hredir, hloc, hjoin, hst, merge_hop]

/-- C5 witness: a `POST` with a nonempty payload against a 301 response
recurses as a `GET` with an `Empty` payload after draining the original
payload on the first stream. -/
theorem claim5_witness :
    connect (env_redirect resp301) 0 req0 "POST" url_api 1 (some []) pay7
      = merge_hop 1 1 (prelude_headers req0 (some []) url_api) (some pay7)
          (connect (env_redirect resp301) 1 req0 "GET" url_next 0
            (update_jar (some []) (request_hostname url_api) resp301) Payload.Empty) :=
  @claim5_redirect_converts_to_get (env_redirect resp301) url_api
    "api.example.com" "/next" url_next
    ⟨fun _ => ⟨0, [], rfl⟩, fun _ _ => rfl, fun _ _ _ => rfl, fun _ => rfl⟩
    (Or.inl rfl) rfl 0 req0 "POST" 0 (some []) pay7 (Or.inl rfl) rfl rfl

/-- C6: on a 307/308 — or any other 3xx that is not 301/302/303 — redirect
with a `Location` header and nonzero budget, the pipeline recurses with the
*original* method and the *original* payload unchanged, the same jar
(updated in place with the response's cookies) and the budget decremented
to `n`; nothing is drained on the current stream. -/
theorem claim6_redirect_preserves_method_payload {env : Env} {url : Url} {hn loc : String}
    {new_url : Url} (henv : net_ok env)
    (hs : url.scheme = "http" ∨ url.scheme = "https") (hh : url.host = some hn)
    (attempt : Nat) (request : Request) (method : String) (n : Nat)
    (jar : Option CookieJar) (payload : Payload)
    (hredir : (env.resp attempt).redirect = true)
    (hst : ¬((env.resp attempt).status = 301 ∨ (env.resp attempt).status = 302
      ∨ (env.resp attempt).status = 303))
    (hloc : (env.resp attempt).header "location" = some loc)
    (hjoin : env.join url loc = some new_url) :
    connect env attempt request method url (n + 1) jar payload
      = merge_hop 1 1 (prelude_headers request jar url) none
          (connect env (attempt + 1) request method new_url n
            (update_jar jar (request_hostname url) (env.resp attempt)) payload) := by
  obtain ⟨s, hc⟩ := connector_ok henv hs hh request
  rw [connect.eq_def, hc]
  simp [host_unwrap_panics_eq_false request hh, hredir, hloc, hjoin, hst, merge_hop]

/-- C6 witness: a `POST` with a nonempty payload against a 307 response
recurses as the same `POST` with the same payload. -/
theorem claim6_witness :
    connect (env_redirect resp307) 0 req0 "POST" url_api 1 (some []) pay7
      = merge_hop 1 1 (prelude_headers req0 (some []) url_api) none
          (connect (env_redirect resp307) 1 req0 "POST" url_next 0
            (update_jar (some []) (request_hostname url_api) resp307) pay7) :=
  @claim6_redirect_preserves_method_payload (env_redirect resp307) url_api
    "api.example.com" "/next" url_next
    ⟨fun _ => ⟨0, [], rfl⟩, fun _ _ => rfl, fun _ _ _ => rfl, fun _ => rfl⟩
    (Or.inl rfl) rfl 0 req0 "POST" 0 (some []) pay7 (by decide) (by decide) rfl rfl

theorem split_semi_ne_nil (l : List Char) : split_semi l ≠ [] := by
  induction l with
  | nil => simp [split_semi]
  | cons c rest ih =>
    by_cases h : c == ';'
    · simp [split_semi, h]
    · rcases hsr : split_semi rest with _ | ⟨s, ss⟩
      · exact absurd hsr ih
      · simp [split_semi, h, hsr]

theorem split_semi_append (a b : List Char) :
    split_semi (a ++ ';' :: b) = split_semi a ++ split_semi b := by
  induction a with
  | nil => simp [split_semi]
  | cons c rest ih =>
    by_cases h : c == ';'
    · simp [split_semi, h, ih]
    · rcases hsr : split_semi rest with _ | ⟨s, ss⟩
      · exact absurd hsr (split_semi_ne_nil rest)
      · rw [List.cons_append]
        simp [split_semi, h, ih, hsr]

theorem split_semi_of_no_semi (l : List Char) (h : ∀ c ∈ l, c ≠ ';') :
    split_semi l = [l] := by
  induction l with
  | nil => rfl
  | cons c rest ih =>
    have hc : (c == ';') = false := beq_eq_false_iff_ne.mpr (h c (by simp))
    have := ih (fun x hx => h x (by simp [hx]))
    simp [split_semi, hc, this]

theorem no_semi_of_str_contains_false {s : String}
    (h : str_contains s ";" = false) : ∀ c ∈ s.data, c ≠ ';' := by
  have : ∀ l : List Char, contains_sub [';'] l = false → ∀ c ∈ l, c ≠ ';' := by
    intro l
    induction l with
    | nil => intro _ c hc; simp at hc
    | cons a rest ih =>
      intro hl c hc
      unfold contains_sub at hl
      rw [Bool.or_eq_false_iff] at hl
      rcases List.mem_cons.mp hc with rfl | hmem
      · intro hcs
        subst hcs
        simp [List.isPrefixOf] at hl
      · exact ih hl.2 c hmem
  exact this s.data h

theorem apply_attr_domain_seg (X : Cookie) (h : String) :
    apply_attr X ((" Domain=").data ++ h.data) = { X with domain := some h } := by
  cases h with
  | mk l => rfl

/-- C7 counterexample: the raw `Set-Cookie` value `a=xdomain=y` has **no**
domain attribute (its parse yields `domain := none`), yet because its
lowercased text contains the substring `"domain="` (inside the cookie
*value*), `conn.rs` does not synthesize one, and the cookie is stored from
host `api.example.com` with no `Domain` attribute at all — not with
`Domain = api.example.com` as the claim requires. -/
theorem claim7_counterexample :
    Cookie.parse_encoded "a=xdomain=y"
        = some ⟨"a", "xdomain=y", none, none, false⟩
    ∧ store_raw_cookie [] "api.example.com" "a=xdomain=y"
        = [⟨"a", "xdomain=y", none, none, false⟩] := by
  exact ⟨rfl, rfl⟩

/-- C7 as amended: the synthesis is keyed on a substring test, not on the
parsed attribute set.  Whenever the lowercased raw value does *not* contain
the substring `"domain="` (and the hostname is `';'`-free, so it survives
the attribute splitter of the cookie collaborator), the stored cookie
carries `Domain =` the request hostname; a raw value that contains
`"domain="` only inside its value text is stored without a `Domain`
attribute (see the counterexample). -/
theorem claim7_amended_domain_synthesis (jar : CookieJar) (hostname raw : String)
    (c : Cookie) (hnosub : str_contains (str_lower raw) "domain=" = false)
    (hsemi : str_contains hostname ";" = false)
    (hparse : Cookie.parse_encoded (prepare_cookie raw hostname) = some c) :
    c.domain = some hostname ∧ store_raw_cookie jar hostname raw = jar ++ [c] := by
  have hprep : prepare_cookie raw hostname = raw ++ "; Domain=" ++ hostname := by
    unfold prepare_cookie
    rw [hnosub]
    simp
  have hdata : (raw ++ "; Domain=" ++ hostname).data
      = raw.data ++ ';' :: ((" Domain=").data ++ hostname.data) := by
    show (raw.data ++ (';' :: (" Domain=").data)) ++ hostname.data = _
    simp
  have hlit : ∀ ch ∈ ((" Domain=").data), ch ≠ ';' := by decide
  have hseg : ∀ ch ∈ ((" Domain=").data ++ hostname.data), ch ≠ ';' := by
    intro ch hch
    rcases List.mem_append.mp hch with h | h
    · exact hlit ch h
    · exact no_semi_of_str_contains_false hsemi ch h
  have hsplit : split_semi (prepare_cookie raw hostname).data
      = split_semi raw.data ++ [(" Domain=").data ++ hostname.data] := by
    rw [hprep, hdata, split_semi_append,
      split_semi_of_no_semi ((" Domain=").data ++ hostname.data) hseg]
  have hstore : store_raw_cookie jar hostname raw = jar ++ [c] := by
    unfold store_raw_cookie
    rw [hparse]
    rfl
  rcases hfs : split_semi raw.data with _ | ⟨first, attrs0⟩
  · exact absurd hfs (split_semi_ne_nil raw.data)
  · unfold Cookie.parse_encoded at hparse
    rw [hsplit, hfs, List.cons_append] at hparse
    dsimp only at hparse
    rcases hpp : parse_pair (trim_lead first) with _ | ⟨n, v⟩
    · rw [hpp] at hparse
      simp at hparse
    · rw [hpp] at hparse
      simp only [Option.some_inj] at hparse
      have hc : c = apply_attr
          (List.foldl apply_attr
            { name := n, value := v, domain := none, path := none, secure := false } attrs0)
          ((" Domain=").data ++ hostname.data) := by
        rw [← hparse, List.foldl_append]
        rfl
      constructor
      · rw [hc, apply_attr_domain_seg]
      · exact hstore

/-- C7 witness for the amended claim: `sid=42` from host `api.example.com`
is stored with `Domain = api.example.com`. -/
theorem claim7_witness :
    (⟨"sid", "42", some "api.example.com", none, false⟩ : Cookie).domain
        = some "api.example.com"
    ∧ store_raw_cookie [] "api.example.com" "sid=42"
        = [] ++ [⟨"sid", "42", some "api.example.com", none, false⟩] :=
  claim7_amended_domain_synthesis [] "api.example.com" "sid=42"
    ⟨"sid", "42", some "api.example.com", none, false⟩ (by decide) (by decide) (by decide)

/-- C2 counterexample: the jar entry with domain attribute `example.com`
*does* match request domain `example.com.evil`, although `example.com` is
not a suffix of it — `match_cookies` tests `domain.contains(cdom)`,
substring containment anywhere, not suffix containment as the claim
states. -/
theorem claim2_counterexample :
    match_cookies [cookie_sub] "example.com.evil" "/" false
        = [⟨"Cookie", "a=1"⟩]
    ∧ List.isSuffixOf ("example.com").data ("example.com.evil").data = false := by
  exact ⟨rfl, by decide⟩

/-- C2 as amended: a jar entry contributes a `Cookie` header only if its
domain attribute is present and the request domain contains it as a
*substring anywhere* (not necessarily as a suffix); an entry with no
domain attribute never matches any request. -/
theorem claim2_amended_domain_containment (jar : CookieJar) (domain path : String)
    (is_secure : Bool) :
    (∀ h ∈ match_cookies jar domain path is_secure,
       ∃ c ∈ jar, (∃ d, c.domain = some d ∧ str_contains domain d = true)
         ∧ cookie_header_line c = some h)
    ∧ (∀ c : Cookie, c.domain = none → cookie_matches c domain path is_secure = false) := by
  constructor
  · intro h hmem
    unfold match_cookies at hmem
    rw [List.reduceOption_mem_iff] at hmem
    obtain ⟨c, hcmem, hline⟩ := List.mem_map.mp hmem
    obtain ⟨hcjar, hpred⟩ := List.mem_filter.mp hcmem
    refine ⟨c, hcjar, ?_, hline⟩
    rcases hd : c.domain with _ | d
    · rw [cookie_matches, hd] at hpred
      simp at hpred
    · refine ⟨d, rfl, ?_⟩
      rw [cookie_matches, hd] at hpred
      simp at hpred
      exact hpred.1.1
  · intro c hd
    rw [cookie_matches, hd]
    simp

/-- C2 witness for the amended claim: the entry with domain `example.com`
matches request domain `www.example.com` through substring containment,
and an entry with no domain attribute never passes the filter. -/
theorem claim2_witness :
    (∃ c ∈ [cookie_sub],
       (∃ d, c.domain = some d ∧ str_contains "www.example.com" d = true)
         ∧ cookie_header_line c = some ⟨"Cookie", "a=1"⟩)
    ∧ cookie_matches cookie_nodomain "www.example.com" "/" false = false := by
  constructor
  · exact (claim2_amended_domain_containment [cookie_sub] "www.example.com" "/" false).1
      ⟨"Cookie", "a=1"⟩ (by decide)
  · exact (claim2_amended_domain_containment [cookie_nodomain] "www.example.com" "/" false).2
      cookie_nodomain rfl

/-- C8: malformed individual cookies are swallowed, never propagated.
Storing is total — an unparseable `Set-Cookie` value leaves the jar
unchanged and aborts nothing (`Err(_) => ()` in `conn.rs`); and a jar
entry whose re-encoding into a `Cookie:` header line fails is dropped from
the match results without affecting the other entries
(`.filter(|o| o.is_some())` in `match_cookies`). -/
theorem claim8_bad_cookies_swallowed :
    (∀ (jar : CookieJar) (hostname raw : String),
       Cookie.parse_encoded (prepare_cookie raw hostname) = none →
       store_raw_cookie jar hostname raw = jar)
    ∧ (∀ (jar1 jar2 : List Cookie) (c : Cookie) (domain path : String) (is_secure : Bool),
       cookie_header_line c = none →
       match_cookies (jar1 ++ c :: jar2) domain path is_secure
         = match_cookies (jar1 ++ jar2) domain path is_secure) := by
  constructor
  · intro jar hostname raw hnone
    unfold store_raw_cookie
    rw [hnone]
  · intro jar1 jar2 c domain path is_secure hline
    unfold match_cookies
    rw [List.filter_append, List.filter_append, List.filter_cons]
    by_cases hm : cookie_matches c domain path is_secure
    · simp [hm, List.map_append, List.reduceOption_append, hline]
    · simp [hm]

/-- C8 witness: the unparseable `Set-Cookie` value `noequals` leaves the
jar untouched, and the jar entry whose value embeds a newline (so its
header line fails to parse) is dropped from the match results. -/
theorem claim8_witness :
    store_raw_cookie [cookie_sub] "api.example.com" "noequals" = [cookie_sub]
    ∧ match_cookies [cookie_sub, cookie_badline] "www.example.com" "/" false
        = match_cookies [cookie_sub] "www.example.com" "/" false := by
  constructor
  · exact claim8_bad_cookies_swallowed.1 [cookie_sub] "api.example.com" "noequals" (by decide)
  · exact claim8_bad_cookies_swallowed.2 [cookie_sub] [] cookie_badline
      "www.example.com" "/" false (by decide)

/-- C10 counterexample: a URL with *no* host but an unrecognized scheme
(`ftp`) makes the pipeline return the error value `UnknownScheme "ftp"` —
refuting the claim's "the pipeline returns an error value only for URLs
that have a host". -/
theorem claim10_counterexample :
    url_ftp_nohost.host = none
    ∧ connect env0 0 req0 "GET" url_ftp_nohost 3 none Payload.Empty
        = ⟨.err (.UnknownScheme "ftp"), none, 0, 0, [], []⟩ := by
  refine ⟨rfl, ?_⟩
  exact connect_unknown_scheme env0 0 req0 "GET" url_ftp_nohost 3 none Payload.Empty
    (by decide) (by decide)

/-- C10 as amended: for a URL with no host component, cookie matching
substitutes the hostname `localhost`; the `http`/`https` paths then panic
inside the connectors (`url.host_str().unwrap()`), so only those schemes
make the pipeline non-total — a URL with an unrecognized scheme returns
the `UnknownScheme` error value even with no host. -/
theorem claim10_amended_no_host_panics (env : Env) (attempt : Nat) (request : Request)
    (method : String) (url : Url) (redirects : Nat) (jar : Option CookieJar)
    (payload : Payload) (hh : url.host = none) :
    request_hostname url = "localhost"
    ∧ ((url.scheme = "http" ∨ url.scheme = "https") →
        (connect env attempt request method url redirects jar payload).outcome
          = .panic)
    ∧ (url.scheme ≠ "http" → url.scheme ≠ "https" →
        (connect env attempt request method url redirects jar payload).outcome
          = .err (.UnknownScheme url.scheme)) := by
  refine ⟨by simp [request_hostname, hh], ?_, ?_⟩
  · intro hs
    have hc : connector env request url = (.panic, 0, 0) := by
      rcases hs with h | h <;> simp [connector, h, connect_http, connect_https, hh]
    rw [connect.eq_def, hc]
  · intro h1 h2
    rw [connect_unknown_scheme env attempt request method url redirects jar payload h1 h2]

/-- C10 witness for the amended claim: `http://` with no host panics, and
cookie matching would have used `localhost`. -/
theorem claim10_witness :
    (connect env0 0 req0 "GET" url_http_nohost 3 none Payload.Empty).outcome = .panic
    ∧ request_hostname url_http_nohost = "localhost" :=
  ⟨(claim10_amended_no_host_panics env0 0 req0 "GET" url_http_nohost 3 none
      Payload.Empty rfl).2.1 (Or.inl rfl),
    (claim10_amended_no_host_panics env0 0 req0 "GET" url_http_nohost 3 none
      Payload.Empty rfl).1⟩

end UreqConn
